import Mathlib

/-!
Shallow embedding of the email-scheduler server (src/server.js) and proofs
about its job-record lifecycle, scheduling endpoint, update/cancel endpoints,
worker callback and decrypt helper.

External collaborators (the Mongo store, the BullMQ queue, the date-fns-tz
normalization, the AES-GCM primitive and the delivery transports) are
modelled as explicit parameters of an `Env`; the handlers themselves are
translated line by line from src/server.js.
-/

namespace EmailScheduler

/-- Lifecycle status of a job record (the `status` field of the EmailJob document). -/
inductive Status where
  | scheduled
  | sent
  | failed
  | cancelled
deriving DecidableEq, Repr

/-- Terminal statuses: everything except `scheduled`. -/
def Status.isTerminal : Status → Bool
  | .scheduled => false
  | _ => true

/-- Attachment reference stored on a record (filename + multer path), server.js:294-296. -/
structure Attachment where
  filename : String
  path : String
deriving DecidableEq, Repr

/-- The EmailJob document as persisted by EmailJob.create (server.js:298-309).
Instants are modelled as integers (milliseconds since epoch). -/
structure JobRecord where
  id : Nat
  «to» : String
  subject : Option String
  body : String
  datetime : Int
  originalLocalTime : String
  timezone : String
  status : Status
  userId : String
  method : String
  attachment : Option Attachment
  sentAt : Option Int
  error : Option String
deriving DecidableEq, Repr

/-- The observable side effects a handler performs, in order. -/
inductive Event where
  | createRecord (r : JobRecord)
  | queueAdd (jobId : Nat) (delay : Int)
  | queueRemove (jobId : Nat)
  | immediateSend (method : String) (recipient : String)
  | unlinkAttachment (path : String)
deriving DecidableEq, Repr

/-- Result of one HTTP handler invocation: status code, jobId in the response
body (when present), the ordered effect trace, and the database afterwards. -/
structure HandlerResult where
  httpStatus : Nat
  jobId : Option Nat
  events : List Event
  db : List JobRecord
deriving DecidableEq, Repr

/-- The environment a request executes in.  It packages the pieces of the
program state and the external libraries the handlers call:
`tzOffset` models the IANA zone database shared by Intl.supportedValuesOf
and date-fns-tz (offset from UTC in milliseconds, none = unrecognized zone);
`parseLocal` models parsing of the local datetime string (none = the
zonedTimeToUtc call throws); `aesOpen` models the AES-128-GCM open
primitive used by decrypt (error = createDecipheriv/final throws);
`queueAvailable` is whether emailQueue is non-null (REDIS_URL set);
`deliverySucceeds` is whether the external delivery call (SendGrid/Twilio)
returns rather than throws, and `deliveryError` the message it throws with;
`uid` is the authenticated user id and `newId` the identifier Mongo assigns
to a freshly created document. -/
structure Env where
  now : Int
  tzOffset : String → Option Int
  parseLocal : String → Option Int
  aesOpen : String → String → Except String String
  providerKey : String
  queueAvailable : Bool
  deliverySucceeds : Bool
  deliveryError : String
  uid : String
  newId : Nat

/-- Model of date-fns-tz zonedTimeToUtc as used at server.js:283 and 471:
parse the local wall-clock string and subtract the zone offset. -/
def zonedTimeToUtc (env : Env) (s tz : String) : Option Int :=
  match env.parseLocal s, env.tzOffset tz with
  | some t, some off => some (t - off)
  | _, _ => none

/-- Membership test of Intl.supportedValuesOf("timeZone") at server.js:249. -/
def tzRecognized (env : Env) (tz : String) : Bool :=
  (env.tzOffset tz).isSome

/-- Mongoose findByIdAndUpdate modelled on a list database: apply the update
to every record whose id matches (ids are unique in Mongo, so at most one). -/
def findByIdAndUpdate (db : List JobRecord) (id : Nat) (f : JobRecord → JobRecord) :
    List JobRecord :=
  db.map (fun r => if r.id = id then f r else r)

/-- Mongoose findById modelled on a list database. -/
def getById (db : List JobRecord) (id : Nat) : Option JobRecord :=
  db.find? (fun r => r.id = id)

/-- Characters matched by the class [A-Za-z0-9+/] of the base64 check in
decrypt (server.js:201). -/
def isB64Char (c : Char) : Bool :=
  c.isAlphanum || c == '+' || c == '/'

/-- The test of the regular expression /^[A-Za-z0-9+/]*={0,2}$/ at
server.js:201: a (possibly empty) run of base64 characters followed by at
most two padding characters. -/
def matchesB64 (s : String) : Bool :=
  let rest := s.toList.dropWhile isB64Char
  rest.all (fun c => c == '=') && decide (rest.length ≤ 2)

/-- The decrypt function of server.js:198-233.  The AES-GCM slicing and
createDecipheriv/update/final pipeline is the external primitive `aesOpen`;
everything it throws is caught by the try/catch of the source, which then
returns the input unchanged, as does the non-base64 early return. -/
def decrypt (aesOpen : String → String → Except String String)
    (encryptedText key : String) : String :=
  if matchesB64 encryptedText then
    match aesOpen key encryptedText with
    | .ok plain => plain
    | .error _ => encryptedText
  else
    encryptedText

/-- The test of the E.164 regular expression /^\+[1-9]\d{1,14}$/ at
server.js:263. -/
def isE164 (s : String) : Bool :=
  match s.toList with
  | c :: d :: rest =>
      c == '+' && (d.isDigit && !(d == '0')) && rest.all Char.isDigit &&
        decide (1 ≤ rest.length) && decide (rest.length ≤ 14)
  | _ => false

/-- The test of the regular expression /^\+/ at server.js:274. -/
def headPlus (s : String) : Bool :=
  match s.toList with
  | c :: _ => c == '+'
  | _ => false

/-- JavaScript truthiness of an optional string field (undefined and the
empty string are falsy), used for the subject at server.js:259. -/
def strOpt (o : Option String) : Option String :=
  match o with
  | some s => if s = "" then none else some s
  | none => none

/-- Body of a POST /api/schedule request (server.js:244): string fields are
modelled with the empty string standing for an absent (falsy) value, except
the optional subject which keeps its optionality. -/
structure ScheduleReq where
  «to» : String
  subject : Option String
  body : String
  datetime : String
  timezone : String
  method : String
  file : Option Attachment
deriving DecidableEq, Repr

/-- The document EmailJob.create persists at server.js:298-309: decrypted
recipient/subject/body, the normalized instant, the original local time
string and zone, status scheduled, the caller's uid, and an attachment only
for email requests. -/
def mkRecord (env : Env) (req : ScheduleReq) (scheduledTime : Int) : JobRecord :=
  { id := env.newId
    «to» := decrypt env.aesOpen req.«to» env.providerKey
    subject :=
      if req.method = "email" then
        (strOpt req.subject).map (fun s => decrypt env.aesOpen s env.providerKey)
      else none
    body := decrypt env.aesOpen req.body env.providerKey
    datetime := scheduledTime
    originalLocalTime := req.datetime
    timezone := req.timezone
    status := Status.scheduled
    userId := env.uid
    method := req.method
    attachment := if req.file.isSome ∧ req.method = "email" then req.file else none
    sentAt := none
    error := none }

/-- The POST /api/schedule handler, server.js:236-395, translated guard by
guard.  The fallback branch models the immediate send through SendGrid or
Twilio (both clients exist because startup exits when their env vars are
missing, server.js:27-43); a throwing send is caught by the outer catch
which answers 500 (server.js:390-393). -/
def postSchedule (env : Env) (req : ScheduleReq) (db : List JobRecord) : HandlerResult :=
  if req.«to» = "" ∨ req.body = "" ∨ req.datetime = "" ∨ req.timezone = "" then
    ⟨400, none, [], db⟩
  else if tzRecognized env req.timezone = false then
    ⟨400, none, [], db⟩
  else
    let decryptedTo := decrypt env.aesOpen req.«to» env.providerKey
    if (req.method = "sms" ∨ req.method = "whatsapp") ∧ isE164 decryptedTo = false then
      ⟨400, none, [], db⟩
    else if req.method = "whatsapp" ∧ headPlus decryptedTo = false then
      ⟨400, none, [], db⟩
    else
      match zonedTimeToUtc env req.datetime req.timezone with
      | none => ⟨400, none, [], db⟩
      | some scheduledTime =>
        let delayMs := scheduledTime - env.now
        if delayMs < 0 then
          ⟨400, none, [], db⟩
        else
          let record : JobRecord := mkRecord env req scheduledTime
          let db1 := db ++ [record]
          if env.queueAvailable then
            ⟨200, some record.id,
              [Event.createRecord record, Event.queueAdd record.id delayMs], db1⟩
          else if req.method = "email" ∨ req.method = "sms" ∨ req.method = "whatsapp" then
            if env.deliverySucceeds then
              ⟨200, some record.id,
                [Event.createRecord record, Event.immediateSend req.method decryptedTo], db1⟩
            else
              ⟨500, none,
                [Event.createRecord record, Event.immediateSend req.method decryptedTo], db1⟩
          else
            ⟨200, some record.id, [Event.createRecord record], db1⟩

/-- Body of a PUT /api/jobs/:id request (server.js:444): every field
optional, the empty string standing for an absent (falsy) value. -/
structure UpdateReq where
  datetime : String
  timezone : String
  subject : String
  body : String
  «to» : String
  file : Option Attachment
deriving DecidableEq, Repr

/-- The update document of the findByIdAndUpdate call at server.js:543-556:
datetime, originalLocalTime and timezone fall back to the previous values
exactly as the || defaults do, subject is stored only for email, and the
status field is never part of the document. -/
def updateDoc (env : Env) (job : JobRecord) (req : UpdateReq)
    (newScheduledTime : Option Int) (r : JobRecord) : JobRecord :=
  { r with
    datetime := newScheduledTime.getD job.datetime
    originalLocalTime := if req.datetime = "" then job.originalLocalTime else req.datetime
    timezone := if req.timezone = "" then job.timezone else req.timezone
    subject :=
      if job.method = "email" then
        (if req.subject = "" then job.subject
          else some (decrypt env.aesOpen req.subject env.providerKey))
      else none
    body :=
      if req.body = "" then job.body
      else decrypt env.aesOpen req.body env.providerKey
    attachment :=
      if req.file.isSome ∧ job.method = "email" then req.file else job.attachment }

/-- The effectful tail of the PUT /api/jobs/:id handler once all guards have
passed (server.js:485-558): attachment replacement, decryption of updated
fields, queue remove+re-add, and the findByIdAndUpdate write of the update
document. -/
def putJobCore (env : Env) (db : List JobRecord) (id : Nat) (job : JobRecord)
    (req : UpdateReq) (newScheduledTime : Option Int) : HandlerResult :=
  let unlinkEvents :=
    if req.file.isSome ∧ job.method = "email" then
      match job.attachment with
      | some a => if a.path ≠ "" then [Event.unlinkAttachment a.path] else []
      | none => []
    else []
  let queueEvents :=
    if env.queueAvailable then
      [Event.queueRemove id,
        Event.queueAdd id ((newScheduledTime.getD job.datetime) - env.now)]
    else []
  let db1 := findByIdAndUpdate db id (updateDoc env job req newScheduledTime)
  ⟨200, some id, unlinkEvents ++ queueEvents, db1⟩

/-- The PUT /api/jobs/:id handler, server.js:424-572: lookup, ownership and
scheduled-status guards, then optional timezone and datetime validation
(datetime is parsed in the new timezone when one was supplied, otherwise in
the record's stored timezone), then the effectful tail. -/
def putJob (env : Env) (db : List JobRecord) (id : Nat) (req : UpdateReq) : HandlerResult :=
  match getById db id with
  | none => ⟨404, none, [], db⟩
  | some job =>
    if job.userId ≠ env.uid then ⟨403, none, [], db⟩
    else if job.status ≠ Status.scheduled then ⟨400, none, [], db⟩
    else if req.timezone ≠ "" ∧ tzRecognized env req.timezone = false then ⟨400, none, [], db⟩
    else if req.datetime = "" then
      putJobCore env db id job req none
    else
      match zonedTimeToUtc env req.datetime
          (if req.timezone = "" then job.timezone else req.timezone) with
      | none => ⟨400, none, [], db⟩
      | some t =>
        if t - env.now < 0 then ⟨400, none, [], db⟩
        else putJobCore env db id job req (some t)

/-- The DELETE /api/jobs/:id handler, server.js:575-614: lookup and
ownership guards, best-effort queue removal, attachment release, then an
unconditional status update to cancelled. -/
def deleteJob (env : Env) (db : List JobRecord) (id : Nat) : HandlerResult :=
  match getById db id with
  | none => ⟨404, none, [], db⟩
  | some job =>
    if job.userId ≠ env.uid then ⟨403, none, [], db⟩
    else
      let queueEvents := if env.queueAvailable then [Event.queueRemove id] else []
      let unlinkEvents :=
        match job.attachment with
        | some a => if a.path ≠ "" then [Event.unlinkAttachment a.path] else []
        | none => []
      ⟨200, none, queueEvents ++ unlinkEvents,
        findByIdAndUpdate db id (fun r => { r with status := Status.cancelled })⟩

/-- Payload of a queued notification job as enqueued at server.js:312-328
and consumed by the worker. -/
structure JobData where
  method : String
  «to» : String
  subject : Option String
  body : String
  emailJobId : Option Nat
  attachment : Option Attachment
deriving DecidableEq, Repr

/-- The Worker("notifications") callback, server.js:98-168.  The delivery
call for each of the three channels throws exactly when the external
transport fails (env.deliverySucceeds = false); the catch block records the
failure on the job record and rethrows so BullMQ retries, while the success
path records sent with a timestamp and returns normally (acknowledge). -/
def processJob (env : Env) (db : List JobRecord) (data : JobData) :
    List JobRecord × Except String Unit :=
  if (data.method = "email" ∨ data.method = "sms" ∨ data.method = "whatsapp") ∧
      env.deliverySucceeds = false then
    match data.emailJobId with
    | some i =>
      (findByIdAndUpdate db i (fun r =>
        { r with status := Status.failed, error := some env.deliveryError }),
        Except.error env.deliveryError)
    | none => (db, Except.error env.deliveryError)
  else
    match data.emailJobId with
    | some i =>
      (findByIdAndUpdate db i (fun r =>
        { r with status := Status.sent, sentAt := some env.now }),
        Except.ok ())
    | none => (db, Except.ok ())

/-- Records created along a trace of handler effects. -/
def createdRecords (evs : List Event) : List JobRecord :=
  evs.filterMap (fun e =>
    match e with
    | Event.createRecord r => some r
    | _ => none)

/-- Holds of a trace in which the first record creation precedes the first
queue submission: scanning left to right, no queueAdd is met before a
createRecord. -/
def addsAfterCreate : List Event → Bool
  | [] => true
  | Event.queueAdd _ _ :: _ => false
  | Event.createRecord _ :: _ => true
  | _ :: rest => addsAfterCreate rest

/-! Concrete instantiations of the external collaborators, used to evaluate
the handlers on closed inputs. -/

/-- Toy zone database with two fixed-offset zones (offsets in milliseconds). -/
def tzOffsetTest : String → Option Int := fun tz =>
  if tz = "UTC" then some 0
  else if tz = "Asia/Kolkata" then some 19800000
  else none

/-- Toy local-datetime parser recognizing the one wall-clock string the
concrete scenarios use. -/
def parseLocalTest : String → Option Int := fun s =>
  if s = "2030-01-01T10:00" then some 1000000 else none

/-- AES-GCM open primitive that always fails authentication, the behavior
seen on any input that was never encrypted with the provider key. -/
def aesOpenFail : String → String → Except String String :=
  fun _ _ => Except.error "Unsupported state or unable to authenticate data"

/-- Baseline test environment: queue available, deliveries succeed. -/
def envTest : Env :=
  { now := 100
    tzOffset := tzOffsetTest
    parseLocal := parseLocalTest
    aesOpen := aesOpenFail
    providerKey := "k"
    queueAvailable := true
    deliverySucceeds := true
    deliveryError := "boom"
    uid := "u1"
    newId := 7 }

/-- Baseline valid email scheduling request. -/
def reqTest : ScheduleReq :=
  { «to» := "a@example.com"
    subject := some "Hi"
    body := "Test"
    datetime := "2030-01-01T10:00"
    timezone := "UTC"
    method := "email"
    file := none }

/-- The record envTest/reqTest creates: mkRecord evaluated at that input. -/
def schedRecord : JobRecord :=
  { id := 7
    «to» := "a@example.com"
    subject := some "Hi"
    body := "Test"
    datetime := 1000000
    originalLocalTime := "2030-01-01T10:00"
    timezone := "UTC"
    status := Status.scheduled
    userId := "u1"
    method := "email"
    attachment := none
    sentAt := none
    error := none }

/-- A record whose delivery already happened: terminal state sent. -/
def sentRecord : JobRecord :=
  { schedRecord with status := Status.sent, sentAt := some 1000000 }

/-- A record whose delivery failed: terminal state failed. -/
def failedRecord : JobRecord :=
  { schedRecord with status := Status.failed, error := some "boom" }

/-- An update request that supplies a new timezone but no datetime. -/
def tzOnlyUpdate : UpdateReq :=
  { datetime := ""
    timezone := "Asia/Kolkata"
    subject := ""
    body := ""
    «to» := ""
    file := none }

/-- The round-trip invariant of a record: normalizing its stored
originalLocalTime in its stored timezone yields its stored datetime. -/
def roundTrip (env : Env) (r : JobRecord) : Prop :=
  zonedTimeToUtc env r.originalLocalTime r.timezone = some r.datetime

/-- Looking a record up after findByIdAndUpdate with an id-preserving update
returns the updated record. -/
theorem getById_findByIdAndUpdate (db : List JobRecord) (id : Nat)
    (f : JobRecord → JobRecord) (hf : ∀ r, (f r).id = r.id) :
    getById (findByIdAndUpdate db id f) id = (getById db id).map f := by
  induction db with
  | nil => rfl
  | cons r rest ih =>
    unfold getById findByIdAndUpdate at *
    by_cases h : r.id = id
    · simp [List.find?_cons, h, hf]
    · simp [List.find?_cons, h, ih]

/-- A findByIdAndUpdate whose update preserves the status field preserves
the statuses of the whole database. -/
theorem map_status_findByIdAndUpdate (db : List JobRecord) (id : Nat)
    (f : JobRecord → JobRecord) (hf : ∀ r, (f r).status = r.status) :
    (findByIdAndUpdate db id f).map (fun r => r.status) = db.map (fun r => r.status) := by
  unfold findByIdAndUpdate
  rw [List.map_map]
  refine List.map_congr_left ?_
  intro r _
  by_cases h : r.id = id <;> simp [h, hf]

/-- A string passing the E.164 test starts with a plus sign. -/
theorem isE164_headPlus (s : String) (h : isE164 s = true) : headPlus s = true := by
  unfold isE164 at h
  cases hs : s.toList with
  | nil => rw [hs] at h; exact absurd h (by simp)
  | cons c cs =>
    rw [hs] at h
    cases cs with
    | nil => simp at h
    | cons d rest =>
      simp only [Bool.and_eq_true] at h
      simp only [headPlus, hs]
      exact h.1.1.1.1

/-- A successful zonedTimeToUtc normalization implies the timezone is in
the zone database, hence recognized by the Intl membership check. -/
theorem tzRecognized_of_zonedTimeToUtc (env : Env) (s tz : String) (t : Int)
    (h : zonedTimeToUtc env s tz = some t) : tzRecognized env tz = true := by
  unfold zonedTimeToUtc at h
  unfold tzRecognized
  cases hp : env.parseLocal s <;> cases ho : env.tzOffset tz <;>
    rw [hp, ho] at h <;> simp_all

/-- C9: the decrypt helper is total on strings and never throws: an input
failing the base64 shape test is returned unchanged, an input whose AES-GCM
open throws for any reason is returned unchanged by the catch block, and
otherwise the decrypted plaintext is returned. -/
theorem c9_theorem (aesOpen : String → String → Except String String) (key s : String) :
    (matchesB64 s = false → decrypt aesOpen s key = s) ∧
    (∀ e, matchesB64 s = true → aesOpen key s = Except.error e →
      decrypt aesOpen s key = s) ∧
    (∀ p, matchesB64 s = true → aesOpen key s = Except.ok p →
      decrypt aesOpen s key = p) := by
  refine ⟨fun h => ?_, fun e h1 h2 => ?_, fun p h1 h2 => ?_⟩
  · simp [decrypt, h]
  · simp [decrypt, h1, h2]
  · simp [decrypt, h1, h2]

/-- Witness for c9_theorem: a non-base64 input passes through unchanged and
a base64-shaped input whose authentication fails passes through unchanged. -/
theorem c9_witness :
    decrypt aesOpenFail "hello world!" "k" = "hello world!" ∧
    decrypt aesOpenFail "Test" "k" = "Test" :=
  ⟨(c9_theorem aesOpenFail "k" "hello world!").1 (by decide),
    (c9_theorem aesOpenFail "k" "Test").2.1
      "Unsupported state or unable to authenticate data" (by decide) rfl⟩

/-- C10: a schedule request on the sms or whatsapp channel whose decrypted
recipient fails the E.164 test is answered 400, with no record created, no
queue submission attempted and the database unchanged. -/
theorem c10_theorem (env : Env) (req : ScheduleReq) (db : List JobRecord)
    (hm : req.method = "sms" ∨ req.method = "whatsapp")
    (hph : isE164 (decrypt env.aesOpen req.«to» env.providerKey) = false) :
    postSchedule env req db = ⟨400, none, [], db⟩ := by
  simp only [postSchedule]
  split_ifs <;> first | rfl | exact absurd (And.intro hm hph) (by assumption)

/-- Witness for c10_theorem: an sms request whose recipient lacks the plus
prefix is rejected with 400 and the database stays empty. -/
theorem c10_witness :
    postSchedule envTest { reqTest with method := "sms", «to» := "12345" } [] =
      ⟨400, none, [], []⟩ :=
  c10_theorem envTest { reqTest with method := "sms", «to» := "12345" } []
    (Or.inl rfl) (by decide)

/-- C2: counterexample — a request whose normalized target instant is
exactly the current time (delay zero, not strictly in the future) is not
rejected: the handler answers 200 and persists a record. -/
theorem c2_counterexample :
    zonedTimeToUtc { envTest with now := 1000000 } reqTest.datetime reqTest.timezone =
      some 1000000 ∧
    (postSchedule { envTest with now := 1000000 } reqTest []).httpStatus = 200 ∧
    createdRecords (postSchedule { envTest with now := 1000000 } reqTest []).events =
      [schedRecord] := by
  decide

/-- C2 (amended): a request whose normalized target instant is strictly
before the current time is rejected with 400 before any persistence: no
record is created, no queue submission is attempted and the database is
unchanged.  A target exactly equal to the current time is accepted, since
the code rejects only strictly negative delays. -/
theorem c2_amended (env : Env) (req : ScheduleReq) (db : List JobRecord) (t : Int)
    (ht : zonedTimeToUtc env req.datetime req.timezone = some t)
    (hlt : t < env.now) :
    postSchedule env req db = ⟨400, none, [], db⟩ := by
  have hd : t - env.now < 0 := by omega
  simp only [postSchedule, ht]
  split_ifs <;> rfl

/-- Witness for c2_amended: a target one hour before now is rejected with
400 and no record is created. -/
theorem c2_amended_witness :
    postSchedule { envTest with now := 2000000 } reqTest [] = ⟨400, none, [], []⟩ :=
  c2_amended { envTest with now := 2000000 } reqTest [] 1000000 (by decide) (by decide)

/-- C4: for every valid schedule request (all required fields present,
recognized timezone, E.164 recipient when the channel is sms or whatsapp,
datetime normalizing to an instant not before now), exactly one job record
is created, it has status scheduled, its creation precedes any queue
submission in the effect trace, and the database afterwards is the previous
database plus exactly that record. -/
theorem c4_theorem (env : Env) (req : ScheduleReq) (db : List JobRecord) (t : Int)
    (hto : req.«to» ≠ "") (hbody : req.body ≠ "") (hdt : req.datetime ≠ "")
    (htz : req.timezone ≠ "")
    (hph : req.method = "sms" ∨ req.method = "whatsapp" →
      isE164 (decrypt env.aesOpen req.«to» env.providerKey) = true)
    (ht : zonedTimeToUtc env req.datetime req.timezone = some t)
    (hnow : env.now ≤ t) :
    createdRecords (postSchedule env req db).events = [mkRecord env req t] ∧
    (mkRecord env req t).status = Status.scheduled ∧
    addsAfterCreate (postSchedule env req db).events = true ∧
    (postSchedule env req db).db = db ++ [mkRecord env req t] := by
  have h1 : ¬(req.«to» = "" ∨ req.body = "" ∨ req.datetime = "" ∨ req.timezone = "") := by
    simp [hto, hbody, hdt, htz]
  have h2 : ¬(tzRecognized env req.timezone = false) := by
    simp [tzRecognized_of_zonedTimeToUtc env req.datetime req.timezone t ht]
  have h3 : ¬((req.method = "sms" ∨ req.method = "whatsapp") ∧
      isE164 (decrypt env.aesOpen req.«to» env.providerKey) = false) := by
    rintro ⟨hsw, hf⟩
    rw [hph hsw] at hf
    cases hf
  have h4 : ¬(req.method = "whatsapp" ∧
      headPlus (decrypt env.aesOpen req.«to» env.providerKey) = false) := by
    rintro ⟨hw, hf⟩
    rw [isE164_headPlus _ (hph (Or.inr hw))] at hf
    cases hf
  have h5 : ¬(t - env.now < 0) := by omega
  simp only [postSchedule, ht]
  rw [if_neg h1, if_neg h2, if_neg h3, if_neg h4, if_neg h5]
  by_cases hq : env.queueAvailable = true
  · simp [hq, createdRecords, addsAfterCreate, mkRecord]
  · by_cases hm : req.method = "email" ∨ req.method = "sms" ∨ req.method = "whatsapp"
    · by_cases hdel : env.deliverySucceeds = true
      · simp [hq, hm, hdel, createdRecords, addsAfterCreate, mkRecord]
      · simp [hq, hm, hdel, createdRecords, addsAfterCreate, mkRecord]
    · simp [hq, hm, createdRecords, addsAfterCreate, mkRecord]

/-- Witness for c4_theorem: the baseline valid email request creates exactly
one scheduled record before its queue submission. -/
theorem c4_witness :
    createdRecords (postSchedule envTest reqTest []).events =
      [mkRecord envTest reqTest 1000000] ∧
    (mkRecord envTest reqTest 1000000).status = Status.scheduled ∧
    addsAfterCreate (postSchedule envTest reqTest []).events = true ∧
    (postSchedule envTest reqTest []).db = [] ++ [mkRecord envTest reqTest 1000000] :=
  c4_theorem envTest reqTest [] 1000000 (by decide) (by decide) (by decide)
    (by decide) (by decide) (by decide) (by decide)

/-- C3: counterexample — with the queue unavailable, a valid request is
answered 200 with a jobId and the immediate fallback send happens, but the
persisted record is left with status scheduled, a non-terminal state: the
fallback path never updates the record to sent or failed. -/
theorem c3_counterexample :
    (postSchedule { envTest with queueAvailable := false } reqTest []).httpStatus = 200 ∧
    (postSchedule { envTest with queueAvailable := false } reqTest []).events =
      [Event.createRecord schedRecord, Event.immediateSend "email" "a@example.com"] ∧
    getById (postSchedule { envTest with queueAvailable := false } reqTest []).db 7 =
      some schedRecord ∧
    schedRecord.status = Status.scheduled ∧
    Status.isTerminal Status.scheduled = false := by
  decide

/-- C3 (amended): for every valid schedule request processed while the
queue is unavailable, the fallback path attempts synchronous immediate
delivery and the caller receives a jobId with a confirmation when delivery
succeeds, or an explicit 500 error when it throws; but the job record is
created and left with status scheduled — the fallback never updates it to a
terminal state. -/
theorem c3_amended (env : Env) (req : ScheduleReq) (db : List JobRecord) (t : Int)
    (hto : req.«to» ≠ "") (hbody : req.body ≠ "") (hdt : req.datetime ≠ "")
    (htz : req.timezone ≠ "")
    (hph : req.method = "sms" ∨ req.method = "whatsapp" →
      isE164 (decrypt env.aesOpen req.«to» env.providerKey) = true)
    (ht : zonedTimeToUtc env req.datetime req.timezone = some t)
    (hnow : env.now ≤ t)
    (hq : env.queueAvailable = false)
    (hm : req.method = "email" ∨ req.method = "sms" ∨ req.method = "whatsapp") :
    (postSchedule env req db).events =
      [Event.createRecord (mkRecord env req t),
        Event.immediateSend req.method (decrypt env.aesOpen req.«to» env.providerKey)] ∧
    (mkRecord env req t).status = Status.scheduled ∧
    (postSchedule env req db).db = db ++ [mkRecord env req t] ∧
    (env.deliverySucceeds = true →
      (postSchedule env req db).httpStatus = 200 ∧
      (postSchedule env req db).jobId = some (mkRecord env req t).id) ∧
    (env.deliverySucceeds = false →
      (postSchedule env req db).httpStatus = 500) := by
  have h1 : ¬(req.«to» = "" ∨ req.body = "" ∨ req.datetime = "" ∨ req.timezone = "") := by
    simp [hto, hbody, hdt, htz]
  have h2 : ¬(tzRecognized env req.timezone = false) := by
    simp [tzRecognized_of_zonedTimeToUtc env req.datetime req.timezone t ht]
  have h3 : ¬((req.method = "sms" ∨ req.method = "whatsapp") ∧
      isE164 (decrypt env.aesOpen req.«to» env.providerKey) = false) := by
    rintro ⟨hsw, hf⟩
    rw [hph hsw] at hf
    cases hf
  have h4 : ¬(req.method = "whatsapp" ∧
      headPlus (decrypt env.aesOpen req.«to» env.providerKey) = false) := by
    rintro ⟨hw, hf⟩
    rw [isE164_headPlus _ (hph (Or.inr hw))] at hf
    cases hf
  have h5 : ¬(t - env.now < 0) := by omega
  simp only [postSchedule, ht]
  rw [if_neg h1, if_neg h2, if_neg h3, if_neg h4, if_neg h5]
  by_cases hdel : env.deliverySucceeds = true
  · simp [hq, hm, hdel, mkRecord]
  · simp [hq, hm, hdel, mkRecord]

/-- Witness for c3_amended: the baseline valid request with the queue
unavailable and delivery succeeding. -/
theorem c3_amended_witness :
    (postSchedule { envTest with queueAvailable := false } reqTest []).events =
      [Event.createRecord (mkRecord { envTest with queueAvailable := false } reqTest 1000000),
        Event.immediateSend "email"
          (decrypt ({ envTest with queueAvailable := false } : Env).aesOpen "a@example.com" "k")] ∧
    (mkRecord { envTest with queueAvailable := false } reqTest 1000000).status =
      Status.scheduled ∧
    (postSchedule { envTest with queueAvailable := false } reqTest []).db =
      [] ++ [mkRecord { envTest with queueAvailable := false } reqTest 1000000] ∧
    (({ envTest with queueAvailable := false } : Env).deliverySucceeds = true →
      (postSchedule { envTest with queueAvailable := false } reqTest []).httpStatus = 200 ∧
      (postSchedule { envTest with queueAvailable := false } reqTest []).jobId =
        some (mkRecord { envTest with queueAvailable := false } reqTest 1000000).id) ∧
    (({ envTest with queueAvailable := false } : Env).deliverySucceeds = false →
      (postSchedule { envTest with queueAvailable := false } reqTest []).httpStatus = 500) :=
  c3_amended { envTest with queueAvailable := false } reqTest [] 1000000
    (by decide) (by decide) (by decide) (by decide) (by decide) (by decide)
    (by decide) (by decide) (Or.inl rfl)

/-- C8: counterexample — a schedule request with channel email and no
subject at all is not rejected: the handler answers 200 and persists a
record whose subject is empty.  The missing-fields guard of server.js:246
never inspects the subject. -/
theorem c8_counterexample :
    (postSchedule envTest { reqTest with subject := none } []).httpStatus = 200 ∧
    createdRecords (postSchedule envTest { reqTest with subject := none } []).events =
      [{ schedRecord with subject := none }] := by
  decide

/-- C8 (amended): the subject is optional on every channel: for every valid
schedule request (fields present, recognized timezone, E.164 recipient for
sms/whatsapp, future target, queue available) the request is accepted with
HTTP 200 and a jobId whatever its subject field, including an absent one —
for the email channel as well as for sms and whatsapp. -/
theorem c8_amended (env : Env) (req : ScheduleReq) (db : List JobRecord) (t : Int)
    (hto : req.«to» ≠ "") (hbody : req.body ≠ "") (hdt : req.datetime ≠ "")
    (htz : req.timezone ≠ "")
    (hph : req.method = "sms" ∨ req.method = "whatsapp" →
      isE164 (decrypt env.aesOpen req.«to» env.providerKey) = true)
    (ht : zonedTimeToUtc env req.datetime req.timezone = some t)
    (hnow : env.now ≤ t)
    (hq : env.queueAvailable = true) :
    ∀ s : Option String,
      (postSchedule env { req with subject := s } db).httpStatus = 200 ∧
      (postSchedule env { req with subject := s } db).jobId = some env.newId := by
  intro s
  have h1 : ¬(req.«to» = "" ∨ req.body = "" ∨ req.datetime = "" ∨ req.timezone = "") := by
    simp [hto, hbody, hdt, htz]
  have h2 : ¬(tzRecognized env req.timezone = false) := by
    simp [tzRecognized_of_zonedTimeToUtc env req.datetime req.timezone t ht]
  have h3 : ¬((req.method = "sms" ∨ req.method = "whatsapp") ∧
      isE164 (decrypt env.aesOpen req.«to» env.providerKey) = false) := by
    rintro ⟨hsw, hf⟩
    rw [hph hsw] at hf
    cases hf
  have h4 : ¬(req.method = "whatsapp" ∧
      headPlus (decrypt env.aesOpen req.«to» env.providerKey) = false) := by
    rintro ⟨hw, hf⟩
    rw [isE164_headPlus _ (hph (Or.inr hw))] at hf
    cases hf
  have h5 : ¬(t - env.now < 0) := by omega
  simp only [postSchedule, ht]
  rw [if_neg h1, if_neg h2, if_neg h3, if_neg h4, if_neg h5]
  simp [hq, mkRecord]

/-- Witness for c8_amended: the baseline valid email request is accepted
with an absent subject. -/
theorem c8_amended_witness :
    (postSchedule envTest { reqTest with subject := none } []).httpStatus = 200 ∧
    (postSchedule envTest { reqTest with subject := none } []).jobId = some 7 :=
  c8_amended envTest reqTest [] 1000000 (by decide) (by decide) (by decide)
    (by decide) (by decide) (by decide) (by decide) (by decide) none

/-- Behavior of the cancel handler on an existing record owned by the
caller: 200, best-effort queue removal, attachment release, and an
unconditional status update to cancelled. -/
theorem deleteJob_owned (env : Env) (db : List JobRecord) (id : Nat) (job : JobRecord)
    (hj : getById db id = some job) (hu : job.userId = env.uid) :
    deleteJob env db id =
      ⟨200, none,
        (if env.queueAvailable then [Event.queueRemove id] else []) ++
          (match job.attachment with
            | some a => if a.path ≠ "" then [Event.unlinkAttachment a.path] else []
            | none => []),
        findByIdAndUpdate db id (fun r => { r with status := Status.cancelled })⟩ ∧
    getById (deleteJob env db id).db id = some { job with status := Status.cancelled } := by
  have hres : deleteJob env db id =
      ⟨200, none,
        (if env.queueAvailable then [Event.queueRemove id] else []) ++
          (match job.attachment with
            | some a => if a.path ≠ "" then [Event.unlinkAttachment a.path] else []
            | none => []),
        findByIdAndUpdate db id (fun r => { r with status := Status.cancelled })⟩ := by
    unfold deleteJob
    rw [hj]
    simp [hu]
  have hlook : getById
      (findByIdAndUpdate db id (fun r => { r with status := Status.cancelled })) id =
      some { job with status := Status.cancelled } := by
    rw [getById_findByIdAndUpdate db id
      (fun r => { r with status := Status.cancelled }) (fun r => rfl), hj]
    rfl
  refine ⟨hres, ?_⟩
  rw [hres]
  exact hlook

/-- C5: counterexample — cancelling a record whose status is failed (a
terminal, non-scheduled state) is not rejected: the handler answers 200 and
rewrites the record to cancelled.  The cancel route never inspects the
status. -/
theorem c5_counterexample :
    failedRecord.status = Status.failed ∧
    (deleteJob envTest [failedRecord] 7).httpStatus = 200 ∧
    getById (deleteJob envTest [failedRecord] 7).db 7 =
      some { failedRecord with status := Status.cancelled } := by
  decide

/-- C5 (amended): the Cancel API succeeds on every existing record owned by
the caller, whatever its status: it removes the queue job by identifier
(best-effort, when the queue is present), releases any attachment, and sets
the status to cancelled.  It rejects only a missing record (404) or an
ownership mismatch (403), leaving the database unchanged in those cases;
the scheduled-only restriction of the specification is not enforced. -/
theorem c5_amended (env : Env) (db : List JobRecord) (id : Nat) :
    (getById db id = none → deleteJob env db id = ⟨404, none, [], db⟩) ∧
    (∀ job, getById db id = some job → job.userId ≠ env.uid →
      deleteJob env db id = ⟨403, none, [], db⟩) ∧
    (∀ job, getById db id = some job → job.userId = env.uid →
      (deleteJob env db id).httpStatus = 200 ∧
      (deleteJob env db id).events =
        (if env.queueAvailable then [Event.queueRemove id] else []) ++
          (match job.attachment with
            | some a => if a.path ≠ "" then [Event.unlinkAttachment a.path] else []
            | none => []) ∧
      (deleteJob env db id).db =
        findByIdAndUpdate db id (fun r => { r with status := Status.cancelled }) ∧
      getById (deleteJob env db id).db id =
        some { job with status := Status.cancelled }) := by
  refine ⟨?_, ?_, ?_⟩
  · intro hj
    unfold deleteJob
    rw [hj]
  · intro job hj hu
    unfold deleteJob
    rw [hj]
    simp [hu]
  · intro job hj hu
    obtain ⟨hres, hlook⟩ := deleteJob_owned env db id job hj hu
    exact ⟨by rw [hres], by rw [hres], by rw [hres], hlook⟩

/-- Witness for c5_amended: cancelling an owned scheduled record answers
200 and marks it cancelled. -/
theorem c5_amended_witness :
    (deleteJob envTest [schedRecord] 7).httpStatus = 200 ∧
    (deleteJob envTest [schedRecord] 7).events =
      (if envTest.queueAvailable then [Event.queueRemove 7] else []) ++
        (match schedRecord.attachment with
          | some a => if a.path ≠ "" then [Event.unlinkAttachment a.path] else []
          | none => []) ∧
    (deleteJob envTest [schedRecord] 7).db =
      findByIdAndUpdate [schedRecord] 7 (fun r => { r with status := Status.cancelled }) ∧
    getById (deleteJob envTest [schedRecord] 7).db 7 =
      some { schedRecord with status := Status.cancelled } :=
  (c5_amended envTest [schedRecord] 7).2.2 schedRecord (by decide) rfl

/-- The effectful tail of the update handler leaves every record status in
the database unchanged: its update document has no status field. -/
theorem putJobCore_map_status (env : Env) (db : List JobRecord) (id : Nat)
    (job : JobRecord) (req : UpdateReq) (nst : Option Int) :
    ((putJobCore env db id job req nst).db).map (fun r => r.status) =
      db.map (fun r => r.status) := by
  simp only [putJobCore]
  exact map_status_findByIdAndUpdate db id _ (fun r => rfl)

/-- The whole update handler leaves every record status in the database
unchanged, on the success path as well as on every rejection path. -/
theorem putJob_map_status (env : Env) (db : List JobRecord) (id : Nat) (req : UpdateReq) :
    ((putJob env db id req).db).map (fun r => r.status) = db.map (fun r => r.status) := by
  unfold putJob
  cases hj : getById db id with
  | none => rfl
  | some job =>
    by_cases h1 : job.userId ≠ env.uid
    · simp [h1]
    · by_cases h2 : job.status ≠ Status.scheduled
      · simp [h1, h2]
      · by_cases h3 : req.timezone ≠ "" ∧ tzRecognized env req.timezone = false
        · simp [h1, h2, h3]
        · by_cases h4 : req.datetime = ""
          · simp [h1, h2, h3, h4, putJobCore_map_status]
          · cases hz : zonedTimeToUtc env req.datetime
                (if req.timezone = "" then job.timezone else req.timezone) with
            | none => simp [h1, h2, h3, h4, hz]
            | some t =>
              by_cases h5 : t - env.now < 0
              · simp [h1, h2, h3, h4, hz, h5]
              · simp [h1, h2, h3, h4, hz, h5, putJobCore_map_status]

/-- C1: counterexample — the Cancel API moves a record out of the terminal
state sent: cancelling an owned record whose status is sent answers 200 and
rewrites its status to cancelled, so terminal states are not final. -/
theorem c1_counterexample :
    Status.isTerminal Status.sent = true ∧
    (deleteJob envTest [sentRecord] 7).httpStatus = 200 ∧
    getById (deleteJob envTest [sentRecord] 7).db 7 =
      some { sentRecord with status := Status.cancelled } := by
  decide

/-- C1 (amended): the status only ever takes the values scheduled, sent,
failed and cancelled, and the Update API never changes any record status
(in particular never moves one out of a terminal state); but the Cancel API
sets every existing owned record to cancelled whatever its current status,
and the worker callback sets the record named by its payload to sent (on
delivery success) or failed (on delivery failure) whatever its current
status — so records do leave the terminal states through those two
operations. -/
theorem c1_amended (env : Env) (db : List JobRecord) (id : Nat) :
    (∀ req : UpdateReq,
      ((putJob env db id req).db).map (fun r => r.status) =
        db.map (fun r => r.status)) ∧
    (∀ job, getById db id = some job → job.userId = env.uid →
      getById (deleteJob env db id).db id =
        some { job with status := Status.cancelled }) ∧
    (∀ data r, data.emailJobId = some id → getById db id = some r →
      getById (processJob env db data).1 id =
        some (if (data.method = "email" ∨ data.method = "sms" ∨
              data.method = "whatsapp") ∧ env.deliverySucceeds = false
          then { r with status := Status.failed, error := some env.deliveryError }
          else { r with status := Status.sent, sentAt := some env.now })) := by
  refine ⟨fun req => putJob_map_status env db id req, ?_, ?_⟩
  · intro job hj hu
    exact (deleteJob_owned env db id job hj hu).2
  · intro data r hid hr
    unfold processJob
    rw [hid]
    by_cases hc : (data.method = "email" ∨ data.method = "sms" ∨
        data.method = "whatsapp") ∧ env.deliverySucceeds = false
    · rw [if_pos hc]
      simp only
      rw [getById_findByIdAndUpdate db id
        (fun r => { r with status := Status.failed, error := some env.deliveryError })
        (fun r => rfl), hr, if_pos hc]
      rfl
    · rw [if_neg hc]
      simp only
      rw [getById_findByIdAndUpdate db id
        (fun r => { r with status := Status.sent, sentAt := some env.now })
        (fun r => rfl), hr, if_neg hc]
      rfl

/-- Witness for c1_amended: on a one-record database the update handler
preserves the scheduled status, the cancel handler cancels the record, and
the worker marks it sent when delivery succeeds. -/
theorem c1_amended_witness :
    ((putJob envTest [schedRecord] 7 tzOnlyUpdate).db).map (fun r => r.status) =
      [schedRecord].map (fun r => r.status) ∧
    getById (deleteJob envTest [schedRecord] 7).db 7 =
      some { schedRecord with status := Status.cancelled } ∧
    getById (processJob envTest [schedRecord]
        { method := "email", «to» := "a@example.com", subject := some "Hi",
          body := "Test", emailJobId := some 7, attachment := none }).1 7 =
      some (if ("email" = "email" ∨ ("email" : String) = "sms" ∨
            ("email" : String) = "whatsapp") ∧ envTest.deliverySucceeds = false
        then { schedRecord with status := Status.failed, error := some envTest.deliveryError }
        else { schedRecord with status := Status.sent, sentAt := some envTest.now }) :=
  ⟨(c1_amended envTest [schedRecord] 7).1 tzOnlyUpdate,
    (c1_amended envTest [schedRecord] 7).2.1 schedRecord (by decide) rfl,
    (c1_amended envTest [schedRecord] 7).2.2
      { method := "email", «to» := "a@example.com", subject := some "Hi",
        body := "Test", emailJobId := some 7, attachment := none }
      schedRecord rfl (by decide)⟩

/-- C6: for every worker invocation whose payload names a job record and
one of the three channels: when the delivery channel succeeds, the record
is updated to sent with a send timestamp and the invocation returns
normally (the job is acknowledged, no retry); when the channel throws, the
record is updated to failed carrying the error message and the same error
is rethrown so the queue's retry policy applies. -/
theorem c6_theorem (env : Env) (db : List JobRecord) (data : JobData) (i : Nat)
    (r : JobRecord) (hid : data.emailJobId = some i) (hr : getById db i = some r)
    (hm : data.method = "email" ∨ data.method = "sms" ∨ data.method = "whatsapp") :
    (env.deliverySucceeds = true →
      processJob env db data =
        (findByIdAndUpdate db i
          (fun x => { x with status := Status.sent, sentAt := some env.now }),
          Except.ok ()) ∧
      getById (processJob env db data).1 i =
        some { r with status := Status.sent, sentAt := some env.now }) ∧
    (env.deliverySucceeds = false →
      processJob env db data =
        (findByIdAndUpdate db i
          (fun x => { x with status := Status.failed, error := some env.deliveryError }),
          Except.error env.deliveryError) ∧
      getById (processJob env db data).1 i =
        some { r with status := Status.failed, error := some env.deliveryError }) := by
  constructor
  · intro hdel
    have hc : ¬((data.method = "email" ∨ data.method = "sms" ∨
        data.method = "whatsapp") ∧ env.deliverySucceeds = false) := by
      simp [hdel]
    have hres : processJob env db data =
        (findByIdAndUpdate db i
          (fun x => { x with status := Status.sent, sentAt := some env.now }),
          Except.ok ()) := by
      unfold processJob
      rw [if_neg hc, hid]
    have hlook : getById (findByIdAndUpdate db i
        (fun x => { x with status := Status.sent, sentAt := some env.now })) i =
        some { r with status := Status.sent, sentAt := some env.now } := by
      rw [getById_findByIdAndUpdate db i
        (fun x => { x with status := Status.sent, sentAt := some env.now })
        (fun x => rfl), hr]
      rfl
    refine ⟨hres, ?_⟩
    rw [hres]
    exact hlook
  · intro hdel
    have hc : (data.method = "email" ∨ data.method = "sms" ∨
        data.method = "whatsapp") ∧ env.deliverySucceeds = false := ⟨hm, hdel⟩
    have hres : processJob env db data =
        (findByIdAndUpdate db i
          (fun x => { x with status := Status.failed, error := some env.deliveryError }),
          Except.error env.deliveryError) := by
      unfold processJob
      rw [if_pos hc, hid]
    have hlook : getById (findByIdAndUpdate db i
        (fun x => { x with status := Status.failed, error := some env.deliveryError })) i =
        some { r with status := Status.failed, error := some env.deliveryError } := by
      rw [getById_findByIdAndUpdate db i
        (fun x => { x with status := Status.failed, error := some env.deliveryError })
        (fun x => rfl), hr]
      rfl
    refine ⟨hres, ?_⟩
    rw [hres]
    exact hlook

/-- Witness for c6_theorem: on a one-record database with a succeeding
channel the worker marks the record sent with a timestamp and acknowledges. -/
theorem c6_witness :
    processJob envTest [schedRecord]
        { method := "email", «to» := "a@example.com", subject := some "Hi",
          body := "Test", emailJobId := some 7, attachment := none } =
      (findByIdAndUpdate [schedRecord] 7
        (fun x => { x with status := Status.sent, sentAt := some envTest.now }),
        Except.ok ()) ∧
    getById (processJob envTest [schedRecord]
        { method := "email", «to» := "a@example.com", subject := some "Hi",
          body := "Test", emailJobId := some 7, attachment := none }).1 7 =
      some { schedRecord with status := Status.sent, sentAt := some envTest.now } :=
  (c6_theorem envTest [schedRecord]
      { method := "email", «to» := "a@example.com", subject := some "Hi",
        body := "Test", emailJobId := some 7, attachment := none }
      7 schedRecord rfl (by decide) (Or.inl rfl)).1 rfl

/-- When the update handler's guards all pass and no datetime was supplied,
the handler runs its effectful tail with no new scheduled time. -/
theorem putJob_eval_nodate (env : Env) (db : List JobRecord) (id : Nat)
    (ureq : UpdateReq) (job : JobRecord)
    (hj : getById db id = some job) (hu : job.userId = env.uid)
    (hs : job.status = Status.scheduled)
    (htz : ¬(ureq.timezone ≠ "" ∧ tzRecognized env ureq.timezone = false))
    (hdt : ureq.datetime = "") :
    putJob env db id ureq = putJobCore env db id job ureq none := by
  unfold putJob
  rw [hj]
  simp [hu, hs, htz, hdt]

/-- When the update handler's guards all pass and a datetime was supplied
that normalizes to an instant not in the past, the handler runs its
effectful tail with that instant as the new scheduled time. -/
theorem putJob_eval_date (env : Env) (db : List JobRecord) (id : Nat)
    (ureq : UpdateReq) (job : JobRecord) (t : Int)
    (hj : getById db id = some job) (hu : job.userId = env.uid)
    (hs : job.status = Status.scheduled)
    (htz : ¬(ureq.timezone ≠ "" ∧ tzRecognized env ureq.timezone = false))
    (hdt : ureq.datetime ≠ "")
    (hz : zonedTimeToUtc env ureq.datetime
      (if ureq.timezone = "" then job.timezone else ureq.timezone) = some t)
    (hpast : ¬(t - env.now < 0)) :
    putJob env db id ureq = putJobCore env db id job ureq (some t) := by
  unfold putJob
  rw [hj]
  simp [hu, hs, htz, hdt, hz, hpast]

/-- C7: counterexample — updating a record with a new timezone but no
datetime keeps the stored datetime and originalLocalTime while replacing
the timezone, so the stored local time no longer normalizes to the stored
instant: the round-trip invariant breaks after this update. -/
theorem c7_counterexample :
    roundTrip envTest schedRecord ∧
    (putJob envTest [schedRecord] 7 tzOnlyUpdate).httpStatus = 200 ∧
    getById (putJob envTest [schedRecord] 7 tzOnlyUpdate).db 7 =
      some { schedRecord with timezone := "Asia/Kolkata" } ∧
    ¬ roundTrip envTest { schedRecord with timezone := "Asia/Kolkata" } := by
  refine ⟨?_, by decide, by decide, ?_⟩
  · simp only [roundTrip]
    decide
  · intro h
    simp only [roundTrip] at h
    exact absurd h (by decide)

/-- C7 (amended): the round-trip invariant (originalLocalTime + timezone
normalize to datetime) holds for every record the scheduling endpoint
creates and is preserved by updates that supply a datetime as well as by
updates that supply neither datetime nor timezone; but an update supplying
a timezone without a datetime keeps the old datetime and originalLocalTime
with the new timezone and can break the invariant, as the counterexample
shows. -/
theorem c7_amended (env : Env) (req : ScheduleReq) (ureq : UpdateReq)
    (db : List JobRecord) (id : Nat) (t : Int) :
    (zonedTimeToUtc env req.datetime req.timezone = some t →
      roundTrip env (mkRecord env req t)) ∧
    (∀ job, getById db id = some job → job.userId = env.uid →
      job.status = Status.scheduled →
      ¬(ureq.timezone ≠ "" ∧ tzRecognized env ureq.timezone = false) →
      ureq.datetime ≠ "" →
      zonedTimeToUtc env ureq.datetime
        (if ureq.timezone = "" then job.timezone else ureq.timezone) = some t →
      ¬(t - env.now < 0) →
      ∀ r2, getById (putJob env db id ureq).db id = some r2 → roundTrip env r2) ∧
    (∀ job, getById db id = some job → job.userId = env.uid →
      job.status = Status.scheduled → ureq.datetime = "" → ureq.timezone = "" →
      roundTrip env job →
      ∀ r2, getById (putJob env db id ureq).db id = some r2 → roundTrip env r2) := by
  refine ⟨?_, ?_, ?_⟩
  · intro ht
    simp only [roundTrip, mkRecord]
    exact ht
  · intro job hj hu hs htzg hdt hz hpast r2 hr2
    rw [putJob_eval_date env db id ureq job t hj hu hs htzg hdt hz hpast] at hr2
    have hdb : (putJobCore env db id job ureq (some t)).db =
        findByIdAndUpdate db id (updateDoc env job ureq (some t)) := rfl
    rw [hdb, getById_findByIdAndUpdate db id (updateDoc env job ureq (some t))
      (fun r => rfl), hj] at hr2
    simp only [Option.map] at hr2
    cases hr2
    simp only [roundTrip, updateDoc, hdt]
    simpa [hdt] using hz
  · intro job hj hu hs hdt htzempty hround r2 hr2
    rw [putJob_eval_nodate env db id ureq job hj hu hs (by simp [htzempty]) hdt] at hr2
    have hdb : (putJobCore env db id job ureq none).db =
        findByIdAndUpdate db id (updateDoc env job ureq none) := rfl
    rw [hdb, getById_findByIdAndUpdate db id (updateDoc env job ureq none)
      (fun r => rfl), hj] at hr2
    simp only [Option.map] at hr2
    cases hr2
    simp only [roundTrip, updateDoc, hdt, htzempty]
    simpa [roundTrip] using hround

/-- Witness for c7_amended: the record the baseline request creates
satisfies the round-trip invariant. -/
theorem c7_amended_witness :
    roundTrip envTest (mkRecord envTest reqTest 1000000) :=
  (c7_amended envTest reqTest tzOnlyUpdate [] 0 1000000).1 (by decide)

end EmailScheduler
